import Mathlib

/-!
# Verification of the TylerStanish/dns wire codec and query pipeline

A shallow embedding of the Rust sources (`serialization.rs`, `header.rs`,
`query.rs`, `answer.rs`, `packet.rs`, `client.rs`, `resolvers.rs`) into Lean.

Modelling conventions:

* Byte buffers are `List Nat`, each element a byte value (`< 256` on all
  inputs we construct; decoders apply the same masks the source applies).
* Rust `u16`/`u32` values are `Nat` with explicit `% 2^w` where the source
  casts (`as u16` becomes `% 65536`).
* Rust `String`/`&str` is Lean `String`; domain names in this code base are
  ASCII, so `word.as_bytes()` is modelled as `Char.toNat` per char and
  `word.len()` as the char count.
* Fallible/partial behaviour is explicit in `DRes`:
  `ok` for `Ok`, `err` for `Err(())`/`Err(DnsAnswer::new())`,
  `panic` for a Rust panic (out-of-bounds index, `unwrap` on `None`/`Err`),
  and `fuelOut` for exhaustion of the explicit fuel that replaces the
  source's unbounded recursion (the source's name decompression can recurse
  forever; a result of `fuelOut` for every fuel models that divergence).
* Arithmetic quirks of the source are kept: the label-copy loop bound
  `(curr_byte as u8 + len) as usize` wraps modulo 256 (release semantics),
  and `data_length: b.len() as u16` truncates modulo 65536.
* The repository snapshot mixes revisions (e.g. `header.rs` declares only
  `ResourceType::{A, AAAA}` while `answer.rs`, `record.rs` and `client.rs`
  also name `NS`, `CName`, `StartOfAuthority`, `MX`, `Unused`). The enum
  here carries all variants named anywhere in the sources; the numeric
  conversions `as_u16` and `TryInto` follow `header.rs` verbatim.
* IO boundaries are parameters: the UDP exchange of `default_resolver` is a
  function `net : String → Nat → DnsPacket` (host, port ↦ decoded reply),
  the `TtlCache` is an association list (its `contains_key`/`get` pair on an
  unchanged map), `authorities()` and the blocklist file are passed in, and
  `standard_query`'s non-cache branch (client.rs lines 96-162: zone scan and
  resolver dispatch) is a continuation parameter `fallback`.
-/

/-- Result of running embedded Rust code: `Ok`, `Err`, a panic, or fuel
exhaustion (the latter standing for divergence of the source's unbounded
recursion). -/
inductive DRes (α : Type) where
  | ok : α → DRes α
  | err : DRes α
  | panic : DRes α
  | fuelOut : DRes α
deriving DecidableEq, Repr

/-- Rust `n > 0` on an unsigned integer, as a `Bool`. -/
def natPos (n : Nat) : Bool :=
  decide (0 < n)

/-- `byteorder::NetworkEndian::read_u16`: big-endian 16-bit read; `none` is
the panic on a too-short slice. -/
def read_u16 : List Nat → Option Nat
  | a :: b :: _ => some (a * 256 + b)
  | _ => none

/-- `byteorder::NetworkEndian::read_u32`: big-endian 32-bit read; `none` is
the panic on a too-short slice. -/
def read_u32 : List Nat → Option Nat
  | a :: b :: c :: d :: _ => some (((a * 256 + b) * 256 + c) * 256 + d)
  | _ => none

/-- `byteorder::NetworkEndian::write_u16`: big-endian bytes of `v mod 2^16`. -/
def write_u16 (v : Nat) : List Nat :=
  [v / 256 % 256, v % 256]

/-- `byteorder::NetworkEndian::write_u32`: big-endian bytes of `v mod 2^32`. -/
def write_u32 (v : Nat) : List Nat :=
  [v / 16777216 % 256, v / 65536 % 256, v / 256 % 256, v % 256]

/-- `HashMap::get` on the association-list model of a map (keys unique by
construction, first match wins). -/
def mapGet {α β : Type} [DecidableEq α] : List (α × β) → α → Option β
  | [], _ => none
  | (k, v) :: rest, key => if k = key then some v else mapGet rest key

/-- `header.rs` `ResourceType`, with the variants the other source files name
(see the module comment on the mixed snapshot). -/
inductive ResourceType where
  | A
  | AAAA
  | NS
  | CName
  | StartOfAuthority
  | MX
  | Unused
deriving DecidableEq, BEq, Repr

/-- `header.rs` `ResourceType::as_u16` (the source's catch-all arm maps every
variant other than `A`/`AAAA` to 0). -/
def ResourceType.as_u16 : ResourceType → Nat
  | .A => 1
  | .AAAA => 28
  | _ => 0

/-- `header.rs` `impl TryInto<ResourceType> for u16`: only 1 and 28 convert. -/
def tryIntoResourceType (v : Nat) : Option ResourceType :=
  if v = 1 then some ResourceType.A
  else if v = 28 then some ResourceType.AAAA
  else none

/-- `header.rs` `ResponseCode`. -/
inductive ResponseCode where
  | NoError
  | FormatError
  | ServerError
  | NameError
  | NotImplemented
  | Refused
deriving DecidableEq, BEq, Repr

/-- `header.rs` `ResponseCode::to_u8`. -/
def ResponseCode.to_u8 : ResponseCode → Nat
  | .NoError => 0
  | .FormatError => 1
  | .ServerError => 2
  | .NameError => 3
  | .NotImplemented => 4
  | .Refused => 5

/-- `header.rs` `impl TryInto<ResponseCode> for u8`: only 0..5 convert. -/
def tryIntoResponseCode (v : Nat) : Option ResponseCode :=
  if v = 0 then some ResponseCode.NoError
  else if v = 1 then some ResponseCode.FormatError
  else if v = 2 then some ResponseCode.ServerError
  else if v = 3 then some ResponseCode.NameError
  else if v = 4 then some ResponseCode.NotImplemented
  else if v = 5 then some ResponseCode.Refused
  else none

/-- Rust `str::split('.')` on the character list: splits at every dot and
keeps empty pieces, so `"" ↦ [""]` and `"a." ↦ ["a", ""]`. -/
def splitDot : List Char → List (List Char)
  | [] => [[]]
  | c :: rest =>
    if c = '.' then [] :: splitDot rest
    else
      match splitDot rest with
      | w :: ws => (c :: w) :: ws
      | [] => [[c]]

/-- `serialization.rs` `serialize_domain_to_bytes`: only when splitting on
dots yields more than one part does it emit length-prefixed labels and the
zero terminator; otherwise (single label or empty string) it returns the
empty byte sequence. The label length is pushed `as u8` (mod 256). -/
def serialize_domain_to_bytes (domain : String) : List Nat :=
  if (splitDot domain.data).length > 1 then
    ((splitDot domain.data).map
      (fun word => (word.length % 256) :: word.map Char.toNat)).flatten ++ [0]
  else []

/-- The `while packet_bytes[ptr] != 0` copy loop of
`serialization.rs::expand_pointers`, run on `packet.drop ptr`: collects bytes
up to (excluding) the first zero; `none` is the out-of-bounds panic when the
buffer ends before a zero byte. -/
def scanZero : List Nat → Option (List Nat)
  | [] => none
  | b :: rest =>
    if b = 0 then some []
    else (scanZero rest).map (fun tail => b :: tail)

/-- The scan of `serialization.rs::expand_pointers` over `name_bytes`: skip
until the first byte with both top bits set, then read the 14-bit offset and
copy from the whole packet until a zero byte (appending the zero). An empty
result means no pointer byte was encountered. -/
def expandPtrGo (packet : List Nat) : List Nat → DRes (List Nat)
  | [] => DRes.ok []
  | b :: rest =>
    if b &&& 0xc0 = 0xc0 then
      match rest with
      | [] => DRes.err
      | b2 :: _ =>
        match scanZero (packet.drop (((b &&& 0x3f) <<< 8) + b2)) with
        | none => DRes.panic
        | some pre => DRes.ok (pre ++ [0])
    else expandPtrGo packet rest

/-- `serialization.rs::expand_pointers`. -/
def expand_pointers (packet nameBytes : List Nat) : DRes (List Nat) :=
  expandPtrGo packet nameBytes

/-- The label-reading `loop` of
`serialization.rs::deserialize_domain_from_bytes`. `recur` is the recursive
call to the surrounding function (with one unit of fuel spent); `k` is a
structural bound on loop iterations, chosen `≥ bytes.length + 1` by the
caller so it never runs out before the loop breaks or panics (each iteration
reads `bytes[curr]`, and `curr` strictly increases).

Faithful quirks of the source: the copy bound `(curr_byte as u8 + len) as
usize` wraps modulo 256, a mid-name pointer byte re-scans the whole `bytes`
slice (`expand_pointers(&packet_bytes, &bytes[0..])`) and then reports
`curr + 2` octets consumed. -/
def deserLoop (packet : List Nat) (recur : List Nat → DRes (String × Nat))
    (bytes : List Nat) : Nat → Nat → String → DRes (String × Nat)
  | 0, _, _ => DRes.fuelOut
  | k + 1, curr, name =>
    match bytes[curr]? with
    | none => DRes.panic
    | some len =>
      if len &&& 0xc0 = 0xc0 then
        match expand_pointers packet bytes with
        | DRes.ok nb =>
          match recur nb with
          | DRes.ok (s, _) => DRes.ok (name ++ s, curr + 2)
          | DRes.err => DRes.err
          | DRes.panic => DRes.panic
          | DRes.fuelOut => DRes.fuelOut
        | DRes.err => DRes.err
        | DRes.panic => DRes.panic
        | DRes.fuelOut => DRes.fuelOut
      else
        if curr + 1 < ((curr + 1) % 256 + len) % 256 ∧
            bytes.length < ((curr + 1) % 256 + len) % 256 then
          DRes.panic
        else
          match bytes[curr + 1 + len]? with
          | none => DRes.panic
          | some b =>
            if b = 0 then
              DRes.ok
                (name ++ String.mk ((List.range' (curr + 1)
                  (((curr + 1) % 256 + len) % 256 - (curr + 1))).map
                    (fun i => Char.ofNat (bytes.getD i 0))), curr + 1 + len + 1)
            else
              deserLoop packet recur bytes k (curr + 1 + len)
                (name ++ String.mk ((List.range' (curr + 1)
                  (((curr + 1) % 256 + len) % 256 - (curr + 1))).map
                    (fun i => Char.ofNat (bytes.getD i 0))) ++ ".")

/-- `serialization.rs::deserialize_domain_from_bytes`, with explicit fuel for
the unbounded mutual recursion through `expand_pointers` (the source has no
guard against pointer cycles; `fuelOut` for every fuel models divergence). -/
def deserialize_domain_from_bytes (packet : List Nat) (fuel : Nat)
    (bytes : List Nat) : DRes (String × Nat) :=
  match fuel with
  | 0 => DRes.fuelOut
  | fuel' + 1 =>
    match bytes[0]? with
    | none => DRes.panic
    | some nameLen =>
      if nameLen &&& 0xc0 = 0xc0 then
        match expand_pointers packet bytes with
        | DRes.ok nb =>
          match deserialize_domain_from_bytes packet fuel' nb with
          | DRes.ok (s, _) => DRes.ok (s, 2)
          | DRes.err => DRes.err
          | DRes.panic => DRes.panic
          | DRes.fuelOut => DRes.fuelOut
        | DRes.err => DRes.err
        | DRes.panic => DRes.panic
        | DRes.fuelOut => DRes.fuelOut
      else
        deserLoop packet (deserialize_domain_from_bytes packet fuel') bytes
          (bytes.length + 1) 0 ""

/-- `header.rs` `DnsHeader`. Sub-byte fields keep their Rust storage widths
(`opcode`/`z` are stored in a byte and masked on encode). -/
structure DnsHeader where
  tx_id : Nat
  is_response : Bool
  opcode : Nat
  authoritative : Bool
  truncated : Bool
  recursion_desired : Bool
  recursion_available : Bool
  z : Nat
  response_code : ResponseCode
  questions_count : Nat
  answers_count : Nat
  authority_count : Nat
  additional_count : Nat
deriving DecidableEq, Repr

/-- `header.rs` `DnsHeader::new()`. -/
def DnsHeader.new : DnsHeader where
  tx_id := 0
  is_response := false
  opcode := 0
  authoritative := false
  truncated := false
  recursion_desired := false
  recursion_available := false
  z := 0
  response_code := ResponseCode.NoError
  questions_count := 0
  answers_count := 0
  authority_count := 0
  additional_count := 0

/-- `header.rs` `DnsHeader::from_bytes`: needs twelve octets (fewer is the
slicing/read panic, `none`); the response-code nibble goes through
`TryInto<ResponseCode>` followed by `.unwrap()`, so nibbles 6..15 panic. -/
def DnsHeader.from_bytes (bytes : List Nat) : Option (DnsHeader × Nat) :=
  match bytes with
  | b0 :: b1 :: f0 :: f1 :: b4 :: b5 :: b6 :: b7 :: b8 :: b9 :: b10 :: b11 :: _ =>
    match tryIntoResponseCode (f1 &&& 0x0f) with
    | none => none
    | some rc =>
      some
        ({ tx_id := b0 * 256 + b1
           is_response := natPos (f0 &&& 0x80)
           opcode := (f0 &&& 0x78) >>> 3
           authoritative := natPos (f0 &&& 0x04)
           truncated := natPos (f0 &&& 0x02)
           recursion_desired := natPos (f0 &&& 0x01)
           recursion_available := natPos (f1 &&& 0x80)
           z := (f1 &&& 0x70) >>> 4
           response_code := rc
           questions_count := b4 * 256 + b5
           answers_count := b6 * 256 + b7
           authority_count := b8 * 256 + b9
           additional_count := b10 * 256 + b11 }, 12)
  | _ => none

/-- `header.rs` `DnsHeader::to_bytes`: the flags word is built by the
source's shift-and-add sequence, masking `opcode` and `z` to their widths
(the enum-typed response code contributes `to_u8`, which is at most 5). -/
def DnsHeader.to_bytes (h : DnsHeader) : List Nat :=
  let f1 := (((if h.is_response then 1 else 0) <<< 4) + (h.opcode &&& 0x0f)) <<< 1
  let f2 := (f1 + (if h.authoritative then 1 else 0)) <<< 1
  let f3 := (f2 + (if h.truncated then 1 else 0)) <<< 1
  let f4 := (f3 + (if h.recursion_desired then 1 else 0)) <<< 1
  let f5 := (f4 + (if h.recursion_available then 1 else 0)) <<< 3
  let flags := ((f5 + (h.z &&& 0x07)) <<< 4) + (h.response_code.to_u8 &&& 0x0f)
  write_u16 h.tx_id ++ [(flags &&& 0xff00) >>> 8, flags &&& 0x00ff] ++
    write_u16 h.questions_count ++ write_u16 h.answers_count ++
    write_u16 h.authority_count ++ write_u16 h.additional_count

/-- `query.rs` `DnsQuery` (`qtype` is the raw `u16` in this revision). -/
structure DnsQuery where
  name : String
  qtype : Nat
  cls : Nat
deriving DecidableEq, Repr

/-- `query.rs` `DnsQuery::new()`. -/
def DnsQuery.new : DnsQuery where
  name := ""
  qtype := 0
  cls := 0

/-- The label-reading `loop` of `query.rs` `DnsQuery::from_bytes` (no
compression support in this parser). Returns the name and the position of
the terminating zero octet (the source breaks before consuming it); `none`
is an out-of-bounds panic. `k` is a structural bound as in `deserLoop`. -/
def queryNameLoop (bytes : List Nat) : Nat → Nat → String → Option (String × Nat)
  | 0, _, _ => none
  | k + 1, curr, name =>
    match bytes[curr]? with
    | none => none
    | some len =>
      if curr + 1 < ((curr + 1) % 256 + len) % 256 ∧
          bytes.length < ((curr + 1) % 256 + len) % 256 then
        none
      else
        match bytes[curr + 1 + len]? with
        | none => none
        | some b =>
          if b = 0 then
            some
              (name ++ String.mk ((List.range' (curr + 1)
                (((curr + 1) % 256 + len) % 256 - (curr + 1))).map
                  (fun i => Char.ofNat (bytes.getD i 0))), curr + 1 + len)
          else
            queryNameLoop bytes k (curr + 1 + len)
              (name ++ String.mk ((List.range' (curr + 1)
                (((curr + 1) % 256 + len) % 256 - (curr + 1))).map
                  (fun i => Char.ofNat (bytes.getD i 0))) ++ ".")

/-- `query.rs` `DnsQuery::from_bytes`; the consumed count is the source's
`curr_byte + 4` after the zero octet and the two 16-bit reads. -/
def DnsQuery.from_bytes (bytes : List Nat) : Option (DnsQuery × Nat) :=
  match bytes[0]? with
  | none => none
  | some _ =>
    match queryNameLoop bytes (bytes.length + 1) 0 "" with
    | none => none
    | some (name, posZero) =>
      match read_u16 (bytes.drop (posZero + 1)) with
      | none => none
      | some qt =>
        match read_u16 (bytes.drop (posZero + 3)) with
        | none => none
        | some cl => some ({ name := name, qtype := qt, cls := cl }, posZero + 5)

/-- `query.rs` `DnsQuery::to_bytes`. -/
def DnsQuery.to_bytes (q : DnsQuery) : List Nat :=
  serialize_domain_to_bytes q.name ++ write_u16 q.qtype ++ write_u16 q.cls

/-- `answer.rs` `DnsAnswer` (`class` is a Lean keyword, stored as `cls`). -/
structure DnsAnswer where
  name : String
  qtype : ResourceType
  cls : Nat
  ttl : Nat
  data_length : Nat
  rdata : List Nat
deriving DecidableEq, BEq, Repr

/-- `answer.rs` `DnsAnswer::new()`. -/
def DnsAnswer.new : DnsAnswer where
  name := ""
  qtype := ResourceType.Unused
  cls := 1
  ttl := 0
  data_length := 0
  rdata := []

/-- `answer.rs` `DnsAnswer::from_bytes`. A failed name parse or an
unconvertible type code returns `Err(DnsAnswer::new())` (`DRes.err`); the
`NS`/`CName` arm `unwrap`s its inner name parse (so its `Err` is a panic);
the cursor advances by the source's literal `+= 6` (AAAA) and `+= 4`
(default) after the rdata slice, and `data_length` is recomputed as
`b.len() as u16`. -/
def DnsAnswer.from_bytes (fuel : Nat) (packet_bytes bytes : List Nat) :
    DRes (DnsAnswer × Nat) :=
  match deserialize_domain_from_bytes packet_bytes fuel bytes with
  | DRes.err => DRes.err
  | DRes.panic => DRes.panic
  | DRes.fuelOut => DRes.fuelOut
  | DRes.ok (name, r0) =>
    match read_u16 (bytes.drop r0) with
    | none => DRes.panic
    | some t =>
      match tryIntoResourceType t with
      | none => DRes.err
      | some qt =>
        match read_u16 (bytes.drop (r0 + 2)) with
        | none => DRes.panic
        | some cl =>
          match read_u32 (bytes.drop (r0 + 4)) with
          | none => DRes.panic
          | some ttl =>
            match read_u16 (bytes.drop (r0 + 8)) with
            | none => DRes.panic
            | some dl =>
              match qt with
              | ResourceType.NS | ResourceType.CName =>
                match deserialize_domain_from_bytes packet_bytes fuel
                    (bytes.drop (r0 + 10)) with
                | DRes.ok (domain, numRead) =>
                  DRes.ok
                    ({ name := name, qtype := qt, cls := cl, ttl := ttl
                       data_length := (serialize_domain_to_bytes domain).length % 65536
                       rdata := serialize_domain_to_bytes domain },
                      r0 + 10 + numRead)
                | DRes.err => DRes.panic
                | DRes.panic => DRes.panic
                | DRes.fuelOut => DRes.fuelOut
              | ResourceType.AAAA =>
                if r0 + 10 + dl ≤ bytes.length then
                  DRes.ok
                    ({ name := name, qtype := qt, cls := cl, ttl := ttl
                       data_length := ((bytes.drop (r0 + 10)).take dl).length % 65536
                       rdata := (bytes.drop (r0 + 10)).take dl }, r0 + 10 + 6)
                else DRes.panic
              | _ =>
                if r0 + 10 + dl ≤ bytes.length then
                  DRes.ok
                    ({ name := name, qtype := qt, cls := cl, ttl := ttl
                       data_length := ((bytes.drop (r0 + 10)).take dl).length % 65536
                       rdata := (bytes.drop (r0 + 10)).take dl }, r0 + 10 + 4)
                else DRes.panic

/-- `answer.rs` `DnsAnswer::to_bytes`. -/
def DnsAnswer.to_bytes (a : DnsAnswer) : List Nat :=
  serialize_domain_to_bytes a.name ++ write_u16 a.qtype.as_u16 ++
    write_u16 a.cls ++ write_u32 a.ttl ++ write_u16 a.data_length ++ a.rdata

/-- `packet.rs` `DnsPacket`. -/
structure DnsPacket where
  header : DnsHeader
  queries : List DnsQuery
  answers : List DnsAnswer
  authority : List DnsAnswer
  additional : List DnsAnswer
deriving DecidableEq, Repr

/-- `packet.rs` `DnsPacket::new()`. -/
def DnsPacket.new : DnsPacket where
  header := DnsHeader.new
  queries := []
  answers := []
  authority := []
  additional := []

/-- `packet.rs` `DnsPacket::new_response()`. -/
def DnsPacket.new_response : DnsPacket :=
  { DnsPacket.new with header := { DnsHeader.new with is_response := true } }

/-- The question-section loop of `packet.rs` `DnsPacket::from_bytes`:
`questions_count` parses, each followed by `bytes.resize_from(num_read)`
(a panic when the count outruns the buffer). -/
def parseQueries (bytes : List Nat) : Nat → DRes (List DnsQuery × Nat)
  | 0 => DRes.ok ([], 0)
  | n + 1 =>
    match DnsQuery.from_bytes bytes with
    | none => DRes.panic
    | some (q, r) =>
      if r ≤ bytes.length then
        match parseQueries (bytes.drop r) n with
        | DRes.ok (qs, total) => DRes.ok (q :: qs, r + total)
        | DRes.err => DRes.err
        | DRes.panic => DRes.panic
        | DRes.fuelOut => DRes.fuelOut
      else DRes.panic

/-- A record-section loop of `packet.rs` `DnsPacket::from_bytes` (used for
answers, authority and additional alike); `packetBytes` is the whole message
for compression-pointer resolution. -/
def parseAnswers (fuel : Nat) (packetBytes bytes : List Nat) :
    Nat → DRes (List DnsAnswer × Nat)
  | 0 => DRes.ok ([], 0)
  | n + 1 =>
    match DnsAnswer.from_bytes fuel packetBytes bytes with
    | DRes.ok (a, r) =>
      if r ≤ bytes.length then
        match parseAnswers fuel packetBytes (bytes.drop r) n with
        | DRes.ok (rest, total) => DRes.ok (a :: rest, r + total)
        | DRes.err => DRes.err
        | DRes.panic => DRes.panic
        | DRes.fuelOut => DRes.fuelOut
      else DRes.panic
    | DRes.err => DRes.err
    | DRes.panic => DRes.panic
    | DRes.fuelOut => DRes.fuelOut

/-- `packet.rs` `DnsPacket::from_bytes`: header, then exactly
`questions_count` questions and the three record sections, each record parse
seeing the whole message (per the `answer.rs` signature) and the advancing
tail. A record-level `Err` propagates as the packet-level `Err`. -/
def DnsPacket.from_bytes (fuel : Nat) (bytes : List Nat) : DRes (DnsPacket × Nat) :=
  match DnsHeader.from_bytes bytes with
  | none => DRes.panic
  | some (header, n0) =>
    match parseQueries (bytes.drop n0) header.questions_count with
    | DRes.err => DRes.err
    | DRes.panic => DRes.panic
    | DRes.fuelOut => DRes.fuelOut
    | DRes.ok (queries, n1) =>
      match parseAnswers fuel bytes ((bytes.drop n0).drop n1) header.answers_count with
      | DRes.err => DRes.err
      | DRes.panic => DRes.panic
      | DRes.fuelOut => DRes.fuelOut
      | DRes.ok (answers, n2) =>
        match parseAnswers fuel bytes (((bytes.drop n0).drop n1).drop n2)
            header.authority_count with
        | DRes.err => DRes.err
        | DRes.panic => DRes.panic
        | DRes.fuelOut => DRes.fuelOut
        | DRes.ok (authority, n3) =>
          match parseAnswers fuel bytes ((((bytes.drop n0).drop n1).drop n2).drop n3)
              header.additional_count with
          | DRes.err => DRes.err
          | DRes.panic => DRes.panic
          | DRes.fuelOut => DRes.fuelOut
          | DRes.ok (additional, n4) =>
            DRes.ok
              ({ header := header, queries := queries, answers := answers
                 authority := authority, additional := additional },
                n0 + n1 + n2 + n3 + n4)

/-- `packet.rs` `DnsPacket::to_bytes`: header bytes then every section's
elements flattened in order. -/
def DnsPacket.to_bytes (p : DnsPacket) : List Nat :=
  p.header.to_bytes ++ (p.queries.map DnsQuery.to_bytes).flatten ++
    (p.answers.map DnsAnswer.to_bytes).flatten ++
    (p.authority.map DnsAnswer.to_bytes).flatten ++
    (p.additional.map DnsAnswer.to_bytes).flatten

/-- The empty `String` (Rust `"".to_owned()` seed of the blocklist loop). -/
def emptyStr : String := ""

/-- The suffix strings the loop of `client.rs::check_blocklist` probes, in
order: the domain's parts are reversed and re-accumulated right-to-left, so
for `a.b.c` the probes are `c`, `b.c`, `a.b.c`. -/
def block_suffixes : List String → String → List String
  | [], _ => []
  | p :: rest, suffix =>
    (if suffix.isEmpty then p ++ suffix else p ++ "." ++ suffix) ::
      block_suffixes rest (if suffix.isEmpty then p ++ suffix else p ++ "." ++ suffix)

/-- The `for part in parts` loop of `client.rs::check_blocklist`: returns
`false` (blocked) as soon as a probed suffix maps to `true` in the
blocklist. -/
def check_blocklist_loop (bl : List (String × Bool)) : List String → String → Bool
  | [], _ => true
  | p :: rest, suffix =>
    match mapGet bl (if suffix.isEmpty then p ++ suffix else p ++ "." ++ suffix) with
    | some b =>
      if b then false
      else check_blocklist_loop bl rest
        (if suffix.isEmpty then p ++ suffix else p ++ "." ++ suffix)
    | none =>
      check_blocklist_loop bl rest
        (if suffix.isEmpty then p ++ suffix else p ++ "." ++ suffix)

/-- `client.rs` `DnsClient::check_blocklist`: `false` means blocked. The
entry check `contains_key(domain)` fires on any stored key regardless of its
wildcard flag; then the reversed-parts loop probes each suffix for a
wildcard (`true`) entry. -/
def check_blocklist (bl : List (String × Bool)) (domain : String) : Bool :=
  if (mapGet bl domain).isSome then false
  else check_blocklist_loop bl (((splitDot domain.data).map String.mk).reverse) emptyStr

/-- `client.rs` `DnsClient::standard_query`, lines 82-95. `cache` is the
`TtlCache` as an association list; `fallback` abstracts the non-cache branch
(lines 96-162: NameError for short names, blocklist drop, zone scan,
resolver dispatch), which no claim in scope exercises. The source's
`contains_key` followed by `get(..).unwrap()` is the single `mapGet` match
(on an unchanged pure map the pair cannot disagree); `req.queries.first().unwrap()`
on an empty question list is a panic. -/
def DnsClient.standard_query (fallback : DnsPacket → DnsQuery → DRes DnsPacket)
    (cache : List (DnsQuery × DnsAnswer)) (req : DnsPacket) : DRes DnsPacket :=
  if req.header.questions_count > 1 then
    DRes.ok { req with header := { req.header with response_code := ResponseCode.NotImplemented } }
  else
    match req.queries.head? with
    | none => DRes.panic
    | some query =>
      match mapGet cache query with
      | some cached => DRes.ok { req with answers := [cached] }
      | none => fallback req query

/-- `client.rs` `DnsClient::results`: dispatch on the request opcode.
Opcode 1 is `inverse_query` (a fresh response with NotImplemented), any
opcode other than 0/1 is `unsupported` (same packet shape). -/
def DnsClient.results (fallback : DnsPacket → DnsQuery → DRes DnsPacket)
    (cache : List (DnsQuery × DnsAnswer)) (req : DnsPacket) : DRes DnsPacket :=
  match req.header.opcode with
  | 0 => DnsClient.standard_query fallback cache req
  | 1 =>
    DRes.ok
      { DnsPacket.new_response with
        header := { DnsPacket.new_response.header with
                      response_code := ResponseCode.NotImplemented } }
  | _ =>
    DRes.ok
      { DnsPacket.new_response with
        header := { DnsPacket.new_response.header with
                      response_code := ResponseCode.NotImplemented } }

/-- The referral scan of `resolvers.rs::default_resolver`: the nested `for`
loops return on the first additional-section A record provided some
authority-section record is an NS; since the additional section is rescanned
identically for every NS record, this collapses to the pair of `find?`s. -/
def referralGlue (res : DnsPacket) : Option DnsAnswer :=
  match res.authority.find? (fun a => a.qtype == ResourceType.NS) with
  | some _ => res.additional.find? (fun a => a.qtype == ResourceType.A)
  | none => none

/-- `std::net::Ipv4Addr::new(a,b,c,d).to_string()`. -/
def ipv4_to_string (a b c d : Nat) : String :=
  toString a ++ "." ++ toString b ++ "." ++ toString c ++ "." ++ toString d

/-- `resolvers.rs::default_resolver` over an abstract network
`net : host → source port → decoded reply` (the socket bind/send/recv and
the `from_bytes` whose `Err` arm also yields a packet). Glue found means an
immediate tail call with the glue IP and `listen_port + 1`; an additional A
record with fewer than four rdata bytes is the indexing panic; otherwise the
received response is returned unchanged. The source has no depth bound:
`fuelOut` for every fuel models the unbounded referral chain. -/
def default_resolver (net : String → Nat → DnsPacket) (fuel : Nat)
    (host : String) (req : DnsPacket) (listen_port : Nat) : DRes DnsPacket :=
  match fuel with
  | 0 => DRes.fuelOut
  | fuel' + 1 =>
    match referralGlue (net host listen_port) with
    | some add =>
      match add.rdata with
      | a :: b :: c :: d :: _ =>
        default_resolver net fuel' (ipv4_to_string a b c d) req (listen_port + 1)
      | _ => DRes.panic
    | none => DRes.ok (net host listen_port)

/-! ## Concrete fixtures for the claim theorems -/

/-- A two-label ASCII test name. -/
def exDottedName : String := "ab.cd"

/-- A dotless (single-label) test name. -/
def exFooLabel : String := "foo"

/-- A test name for the client fixtures. -/
def exFooCom : String := "foo.com"

/-- Blocklist fixture: the non-wildcard entry of the claim's example. -/
def exAds : String := "ads.example.com"

/-- Blocklist fixture: the stored suffix of the wildcard entry
`*.tracker.net` (the loader strips the leading wildcard before insertion). -/
def exTrackerNet : String := "tracker.net"

/-- Blocklist fixture: a name below the wildcard suffix. -/
def exPixelTracker : String := "pixel.tracker.net"

/-- The blocklist of the claim's example, as stored by
`blocklist.rs::validate_blocklist_entry`. -/
def exBlocklist : List (String × Bool) := [(exAds, false), (exTrackerNet, true)]

/-- AAAA rdata bytes chosen so the misplaced decode cursor lands on a
zero-length name followed by the type code 0xabcd. -/
def exAAAARdata : List Nat := [0, 0, 0, 0, 0, 0, 0, 0, 171, 205, 0, 0, 0, 0, 0, 0]

/-- A well-formed AAAA resource record (16 rdata octets). -/
def exAnsAAAA : DnsAnswer where
  name := exDottedName
  qtype := ResourceType.AAAA
  cls := 1
  ttl := 0
  data_length := 16
  rdata := exAAAARdata

/-- A well-formed A resource record (4 rdata octets). -/
def exAnsA : DnsAnswer where
  name := exDottedName
  qtype := ResourceType.A
  cls := 1
  ttl := 0
  data_length := 4
  rdata := [1, 2, 3, 4]

/-- A valid message for the round-trip claim: section counts equal section
lengths, both record types are in the supported set, names are well-formed
multi-label ASCII names, and each record's `data_length` equals its rdata
length. -/
def exRoundTripMsg : DnsPacket where
  header := { DnsHeader.new with answers_count := 2 }
  queries := []
  answers := [exAnsAAAA, exAnsA]
  authority := []
  additional := []

/-- The cached question of the cache-hit fixture. -/
def exQuery : DnsQuery where
  name := exFooCom
  qtype := 1
  cls := 1

/-- The cached answer of the cache-hit fixture. -/
def exCachedAnswer : DnsAnswer where
  name := exFooCom
  qtype := ResourceType.A
  cls := 1
  ttl := 30
  data_length := 4
  rdata := [12, 34, 56, 78]

/-- The cache holding exactly the fixture question. -/
def exCache : List (DnsQuery × DnsAnswer) := [(exQuery, exCachedAnswer)]

/-- A continuation for the branch of `standard_query` past the cache (never
reached by the claims exercised here). -/
def exFallback : DnsPacket → DnsQuery → DRes DnsPacket := fun _ _ => DRes.err

/-- A decoded standard-opcode request with one question, in the cache. -/
def exCacheHitReq : DnsPacket where
  header := { DnsHeader.new with questions_count := 1, tx_id := 0xbeef }
  queries := [exQuery]
  answers := []
  authority := []
  additional := []

/-- A decoded standard-opcode request with zero questions. -/
def exZeroQuestionReq : DnsPacket := DnsPacket.new

/-- A decoded standard-opcode request claiming two questions. -/
def exTwoQuestionReq : DnsPacket :=
  { DnsPacket.new with header := { DnsHeader.new with questions_count := 2 } }

/-- Owner name for the resolver fixtures. -/
def exNsName : String := "ns.x"

/-- An NS record in the authority section of a referral. -/
def exNsAnswer : DnsAnswer where
  name := exNsName
  qtype := ResourceType.NS
  cls := 1
  ttl := 0
  data_length := 0
  rdata := []

/-- An A glue record carrying the address 1.2.3.4. -/
def exGlueAnswer : DnsAnswer where
  name := exNsName
  qtype := ResourceType.A
  cls := 1
  ttl := 0
  data_length := 4
  rdata := [1, 2, 3, 4]

/-- A referral with an NS authority record but no glue in additional. -/
def exReferralPkt : DnsPacket := { DnsPacket.new with authority := [exNsAnswer] }

/-- A referral with both an NS authority record and A glue. -/
def exGluePkt : DnsPacket :=
  { DnsPacket.new with authority := [exNsAnswer], additional := [exGlueAnswer] }

/-- A network in which every server answers with the glue-less referral. -/
def exNetNoGlue : String → Nat → DnsPacket := fun _ _ => exReferralPkt

/-- A network in which every server answers with a glued referral, so the
source's resolver chases referrals forever. -/
def exNetGlue : String → Nat → DnsPacket := fun _ _ => exGluePkt

/-- The hardcoded root hint of `client.rs`. -/
def exRootHost : String := "198.41.0.4"

/-- The request forwarded through the resolver fixtures. -/
def exResolverReq : DnsPacket := exCacheHitReq

/-- Wire bytes of a record whose 16-bit type is 0xabcd (outside every
supported set); the buffer ends at the type because the source rejects
before reading further. -/
def exUnknownTypeRecord : List Nat := [2, 97, 98, 2, 99, 100, 0, 171, 205]

/-- Wire bytes of a record whose 16-bit type is 2 (NS on the wire). -/
def exNsTypeRecord : List Nat := [2, 97, 98, 2, 99, 100, 0, 0, 2]

/-- Wire bytes of a complete A record (name `ab.cd`, type 1, class 1,
ttl 30, data length 4, rdata 1.2.3.4). -/
def exARecordBytes : List Nat :=
  [2, 97, 98, 2, 99, 100, 0, 0, 1, 0, 1, 0, 0, 0, 30, 0, 4, 1, 2, 3, 4]

/-- The decode of `exARecordBytes`. -/
def exARecordAnswer : DnsAnswer where
  name := exDottedName
  qtype := ResourceType.A
  cls := 1
  ttl := 30
  data_length := 4
  rdata := [1, 2, 3, 4]

/-! ## Claim theorems -/

/-- C1: the round-trip property fails on the code. `exRoundTripMsg` is valid
in the claim's sense (counts match lengths, record types A/AAAA, well-formed
names, `data_length` = rdata length), yet decoding its encoding does not
yield it back: after the AAAA record the decoder advances the cursor by the
literal 6 instead of the 16-byte rdata length, re-parses from inside the
rdata, reads the type 0xabcd there and fails with the record-level `Err`. -/
theorem roundtrip_fails_after_aaaa_record :
    exRoundTripMsg.header.answers_count = exRoundTripMsg.answers.length ∧
    exRoundTripMsg.header.questions_count = exRoundTripMsg.queries.length ∧
    exRoundTripMsg.header.authority_count = exRoundTripMsg.authority.length ∧
    exRoundTripMsg.header.additional_count = exRoundTripMsg.additional.length ∧
    DnsPacket.from_bytes 100 (DnsPacket.to_bytes exRoundTripMsg) = DRes.err := by
  refine ⟨rfl, rfl, rfl, rfl, by decide⟩

/-- One unfolding step of the name decoder on the self-referential pointer
message `[0xc0, 0x00]`: expanding the pointer reproduces the same two bytes
and the decoder recurses on them. -/
theorem selfptr_step (n : Nat) :
    deserialize_domain_from_bytes [192, 0] (n + 1) [192, 0] =
      (match deserialize_domain_from_bytes [192, 0] n [192, 0] with
       | DRes.ok (s, _) => DRes.ok (s, 2)
       | DRes.err => DRes.err
       | DRes.panic => DRes.panic
       | DRes.fuelOut => DRes.fuelOut) := rfl

/-- C2: name decoding does not terminate on a self-referential compression
pointer. On the message `[0xc0, 0x00]` (a pointer whose 14-bit target is its
own offset 0), the decoder exhausts every fuel bound — the source recurses
forever instead of failing with FormatError; no pointer-direction check and
no 128-read cap exist in the code. -/
theorem selfreferential_pointer_never_terminates :
    ∀ fuel : Nat,
      deserialize_domain_from_bytes [192, 0] fuel [192, 0] = DRes.fuelOut := by
  intro fuel
  induction fuel with
  | zero => rfl
  | succ n ih => rw [selfptr_step n, ih]

/-- C3: header decoding panics on unknown rcode nibbles instead of mapping
them to FormatError: on a twelve-octet buffer whose rcode nibble is 6 the
`TryInto<ResponseCode>` fails and the source `unwrap`s the failure (`none`
here models the panic), while the same buffer with nibble 5 decodes fine. -/
theorem header_rcode_unwrap_panics_on_unknown_nibble :
    DnsHeader.from_bytes [0, 0, 0, 6, 0, 0, 0, 0, 0, 0, 0, 0] = none ∧
    DnsHeader.from_bytes [0, 0, 0, 5, 0, 0, 0, 0, 0, 0, 0, 0] =
      some ({ DnsHeader.new with response_code := ResponseCode.Refused }, 12) := by
  exact ⟨rfl, by decide⟩

/-- C4: on a cache hit the pipeline returns the request packet with only the
answer section replaced by the cached record — the transaction id is
preserved, but `is_response` keeps the request's value `false`; the claimed
`is_response = true` is never set on this path (unlike the NameError and
authority paths two branches below it). -/
theorem cache_hit_response_leaves_request_header :
    DnsClient.results exFallback exCache exCacheHitReq =
      DRes.ok { exCacheHitReq with answers := [exCachedAnswer] } ∧
    ({ exCacheHitReq with answers := [exCachedAnswer] } : DnsPacket).header.is_response
        = false ∧
    ({ exCacheHitReq with answers := [exCachedAnswer] } : DnsPacket).header.tx_id
        = 0xbeef := by
  refine ⟨by decide, rfl, rfl⟩

/-- C5 counterexample: with the claim's own blocklist
`{ads.example.com ↦ false, tracker.net ↦ true}` (the stored form of
`{ads.example.com, *.tracker.net}`), the name `tracker.net` IS blocked
(`check_blocklist` returns `false`), because the exact-match `contains_key`
check fires on any stored key regardless of its wildcard flag — the claim
says it is not blocked. -/
theorem wildcard_suffix_itself_blocked :
    check_blocklist exBlocklist exTrackerNet = false := by decide

/-- The loop of `check_blocklist` blocks exactly when one of the probed
suffixes is a wildcard (`true`) entry. -/
theorem check_blocklist_loop_false_iff (bl : List (String × Bool)) :
    ∀ (parts : List String) (suffix : String),
      check_blocklist_loop bl parts suffix = false ↔
        ∃ s, s ∈ block_suffixes parts suffix ∧ mapGet bl s = some true := by
  intro parts
  induction parts with
  | nil =>
    intro suffix
    simp [check_blocklist_loop, block_suffixes]
  | cons p rest ih =>
    intro suffix
    simp only [check_blocklist_loop, block_suffixes, List.mem_cons]
    generalize (if suffix.isEmpty then p ++ suffix else p ++ "." ++ suffix) = t
    cases hm : mapGet bl t with
    | none =>
      rw [ih]
      constructor
      · rintro ⟨s, hs, hget⟩
        exact ⟨s, Or.inr hs, hget⟩
      · rintro ⟨s, hs | hs, hget⟩
        · subst hs; rw [hm] at hget; cases hget
        · exact ⟨s, hs, hget⟩
    | some b =>
      cases b with
      | true =>
        constructor
        · intro _
          exact ⟨t, Or.inl rfl, hm⟩
        · intro _
          rfl
      | false =>
        show check_blocklist_loop bl rest t = false ↔ _
        rw [ih]
        constructor
        · rintro ⟨s, hs, hget⟩
          exact ⟨s, Or.inr hs, hget⟩
        · rintro ⟨s, hs | hs, hget⟩
          · subst hs; rw [hm] at hget; cases hget
          · exact ⟨s, hs, hget⟩

/-- C5 (amended): a name is blocked iff it equals the stored key of ANY
entry (for a wildcard entry the stored key is its bare suffix, so the suffix
itself is blocked too), or one of its right-to-left accumulated suffixes —
the name itself included — equals a wildcard entry's suffix. In the claim's
example both `pixel.tracker.net` AND `tracker.net` are blocked. -/
theorem check_blocklist_blocked_iff :
    (∀ (bl : List (String × Bool)) (domain : String),
        check_blocklist bl domain = false ↔
          ((mapGet bl domain).isSome ∨
            ∃ s, s ∈ block_suffixes (((splitDot domain.data).map String.mk).reverse)
                emptyStr ∧ mapGet bl s = some true)) ∧
    check_blocklist exBlocklist exPixelTracker = false ∧
    check_blocklist exBlocklist exTrackerNet = false := by
  refine ⟨?_, by decide, by decide⟩
  intro bl domain
  unfold check_blocklist
  by_cases h : (mapGet bl domain).isSome
  · simp [h]
  · simp [h, check_blocklist_loop_false_iff]

/-- C6 counterexample: on a referral whose authority section has an NS
record but whose additional section has no A glue, the resolver returns the
received referral unchanged — its response code is NoError, not the claimed
ServerError. -/
theorem missing_glue_returns_referral_unchanged :
    default_resolver exNetNoGlue 1 exRootHost exResolverReq 40000 =
      DRes.ok exReferralPkt ∧
    exReferralPkt.header.response_code ≠ ResponseCode.ServerError := by
  exact ⟨by decide, by decide⟩

/-- One unfolding step of the resolver on the always-glued network: every
hop finds the glue 1.2.3.4 and recurses with the next source port. -/
theorem glue_step (n : Nat) (host : String) (port : Nat) :
    default_resolver exNetGlue (n + 1) host exResolverReq port =
      default_resolver exNetGlue n (ipv4_to_string 1 2 3 4) exResolverReq (port + 1) :=
  rfl

/-- C6 (amended): when the scanned referral yields no glue the resolver
returns the received response unchanged (no ServerError is synthesised), and
there is no recursion-depth cap at all: on a network that always supplies
glue the resolver exhausts every fuel bound (the source recurses without
limit, incrementing the source port each hop). -/
theorem default_resolver_no_glue_and_unbounded :
    (∀ (net : String → Nat → DnsPacket) (host : String) (req : DnsPacket)
        (port fuel : Nat),
        referralGlue (net host port) = none →
          default_resolver net (fuel + 1) host req port = DRes.ok (net host port)) ∧
    (∀ (fuel : Nat) (host : String) (port : Nat),
        default_resolver exNetGlue fuel host exResolverReq port = DRes.fuelOut) := by
  constructor
  · intro net host req port fuel h
    have hstep : default_resolver net (fuel + 1) host req port =
        (match referralGlue (net host port) with
         | some add =>
           match add.rdata with
           | a :: b :: c :: d :: _ =>
             default_resolver net fuel (ipv4_to_string a b c d) req (port + 1)
           | _ => DRes.panic
         | none => DRes.ok (net host port)) := rfl
    rw [hstep, h]
  · intro fuel
    induction fuel with
    | zero => intro host port; rfl
    | succ n ih =>
      intro host port
      rw [glue_step n host port]
      exact ih _ _

/-- C6 witness: the no-glue half of the amended theorem applied to the
concrete glue-less network. -/
theorem default_resolver_no_glue_witness :
    default_resolver exNetNoGlue 5 exRootHost exResolverReq 40000 =
      DRes.ok (exNetNoGlue exRootHost 40000) :=
  default_resolver_no_glue_and_unbounded.1 exNetNoGlue exRootHost exResolverReq
    40000 4 (by decide)

/-- C7: a decoded standard-opcode request with zero questions panics
(`req.queries.first().unwrap()` on the empty question list) instead of
returning NotImplemented; the guard only catches counts greater than one,
for which NotImplemented is returned as claimed. -/
theorem zero_questions_panics_two_questions_not_implemented :
    DnsClient.results exFallback [] exZeroQuestionReq = DRes.panic ∧
    DnsClient.results exFallback [] exTwoQuestionReq =
      DRes.ok { exTwoQuestionReq with
                  header := { exTwoQuestionReq.header with
                                response_code := ResponseCode.NotImplemented } } := by
  exact ⟨by decide, by decide⟩

/-- C8 counterexample: the encoder maps the dotless name `foo` to the empty
byte sequence, not to `[3, 102, 111, 111, 0]`, and the empty string to the
empty byte sequence, not to `[0]` — the `split.len() > 1` guard suppresses
all output for names without a dot. -/
theorem single_label_and_empty_serialize_empty :
    serialize_domain_to_bytes exFooLabel ≠ [3, 102, 111, 111, 0] ∧
    serialize_domain_to_bytes emptyStr ≠ [0] := by
  exact ⟨by decide, by decide⟩

/-- C8 (amended): a name whose dot-split has at most one part (a single
dotless label, or the empty string) is encoded as the empty byte sequence;
only names containing a dot are emitted as length-prefixed labels with the
zero terminator. -/
theorem serialize_domain_dotless_empty :
    (∀ s : String, (splitDot s.data).length ≤ 1 → serialize_domain_to_bytes s = []) ∧
    serialize_domain_to_bytes exDottedName = [2, 97, 98, 2, 99, 100, 0] := by
  constructor
  · intro s h
    unfold serialize_domain_to_bytes
    rw [if_neg (by omega)]
  · decide

/-- C8 witness: the amended theorem applied to the dotless name `foo`. -/
theorem serialize_domain_dotless_witness :
    serialize_domain_to_bytes exFooLabel = [] :=
  serialize_domain_dotless_empty.1 exFooLabel (by decide)

/-- C9 counterexample: a record whose wire type is 0xabcd (outside every
supported set) is rejected — `DnsAnswer::from_bytes` returns its `Err`
variant instead of succeeding with the rdata retained. -/
theorem unknown_type_record_rejected :
    DnsAnswer.from_bytes 10 [] exUnknownTypeRecord = DRes.err := by decide

/-- C9 (amended): any record whose 16-bit type code is neither 1 (A) nor 28
(AAAA) — including on-the-wire NS/CNAME/SOA/MX codes — makes record decoding
return `Err`; no opaque-rdata fallback exists. -/
theorem from_bytes_err_on_unsupported_type (fuel : Nat) (packet bytes : List Nat)
    (s : String) (n t : Nat)
    (hname : deserialize_domain_from_bytes packet fuel bytes = DRes.ok (s, n))
    (htype : read_u16 (bytes.drop n) = some t)
    (h1 : t ≠ 1) (h28 : t ≠ 28) :
    DnsAnswer.from_bytes fuel packet bytes = DRes.err := by
  simp [DnsAnswer.from_bytes, hname, htype, tryIntoResourceType, h1, h28]

/-- C9 witness: the amended theorem applied to a record with wire type 2
(NS), which the decoder rejects. -/
theorem from_bytes_err_on_unsupported_type_witness :
    DnsAnswer.from_bytes 10 [] exNsTypeRecord = DRes.err :=
  from_bytes_err_on_unsupported_type 10 [] exNsTypeRecord exDottedName 7 2
    (by decide) (by decide) (by decide) (by decide)

/-- C10: whenever record decoding succeeds, the returned record's
`data_length` equals its rdata length reduced by the source's `as u16` cast
(`% 65536`), hence equals the rdata length exactly whenever that length is
representable in 16 bits — the wire value is discarded and the field
recomputed, so the two fields cannot disagree. -/
theorem data_length_eq_rdata_length (fuel : Nat) (packet bytes : List Nat)
    (a : DnsAnswer) (n : Nat)
    (h : DnsAnswer.from_bytes fuel packet bytes = DRes.ok (a, n)) :
    a.data_length = a.rdata.length % 65536 ∧
      (a.rdata.length < 65536 → a.data_length = a.rdata.length) := by
  unfold DnsAnswer.from_bytes at h
  repeat' split at h
  all_goals (cases h <;> exact ⟨rfl, fun hlt => Nat.mod_eq_of_lt hlt⟩)

/-- C10 witness: the invariant at the concrete A record `exARecordBytes`. -/
theorem data_length_eq_rdata_length_witness :
    exARecordAnswer.data_length = exARecordAnswer.rdata.length % 65536 ∧
      (exARecordAnswer.rdata.length < 65536 →
        exARecordAnswer.data_length = exARecordAnswer.rdata.length) :=
  data_length_eq_rdata_length 10 [] exARecordBytes exARecordAnswer 21 (by decide)

/-! ## Embedding fidelity: the model reproduces the source's own unit tests -/

/-- The message of serialization.rs `test_deserialize_domain_from_bytes_with_pointer`. -/
def exPtrTestBytes : List Nat :=
  [0, 0, 0xde, 0xad, 0xbe, 0xef, 3, 102, 111, 111, 3, 98, 97, 114,
   3, 99, 111, 109, 0, 3, 98, 97, 122, 0xc0, 0x06]

/-- The first expected name of that test. -/
def exPtrName1 : String := "baz.foo.bar.com"

/-- The second expected name of that test. -/
def exPtrName2 : String := "foo.bar.com"

/-- The embedding reproduces serialization.rs
`test_deserialize_domain_from_bytes_with_pointer`: a name ending in a
pointer decodes through the pointer and reports 6 octets consumed, and a
bare pointer decodes to the target name consuming 2 octets. -/
theorem deserialize_pointer_matches_source_test :
    deserialize_domain_from_bytes exPtrTestBytes 10 (exPtrTestBytes.drop 19) =
      DRes.ok (exPtrName1, 6) ∧
    deserialize_domain_from_bytes exPtrTestBytes 10 (exPtrTestBytes.drop 23) =
      DRes.ok (exPtrName2, 2) := by
  exact ⟨by decide, by decide⟩

/-- The header of header.rs `test_response_header_to_bytes` (its
`response_code = 5` read through the enum as `Refused`). -/
def exHeaderTestHdr : DnsHeader :=
  { DnsHeader.new with
    tx_id := 0xbeef, is_response := true, authoritative := true,
    truncated := true, recursion_desired := true, recursion_available := true,
    response_code := ResponseCode.Refused,
    questions_count := 0xabcd, answers_count := 0xabcd,
    authority_count := 0xabcd, additional_count := 0xabcd }

/-- The embedding reproduces header.rs `test_response_header_to_bytes`. -/
theorem header_to_bytes_matches_source_test :
    exHeaderTestHdr.to_bytes =
      [0xbe, 0xef, 0x87, 0x85, 0xab, 0xcd, 0xab, 0xcd, 0xab, 0xcd, 0xab, 0xcd] := by
  decide

/-- The query bytes of query.rs `test_query_from_bytes`. -/
def exQueryTestBytes : List Nat :=
  [3, 102, 111, 111, 3, 99, 111, 109, 0, 0, 1, 0, 1]

/-- The embedding reproduces query.rs `test_query_from_bytes`. -/
theorem query_from_bytes_matches_source_test :
    DnsQuery.from_bytes exQueryTestBytes =
      some ({ name := exFooCom, qtype := 1, cls := 1 }, 13) := by
  decide
